import Mathlib

/-!
# The depth-stencil cache key of the Metal render system

A shallow embedding of `MetalRenderSystem::CachedDepthStencilState`
(`RenderSystems/Metal/include/OgreMetalRenderSystem.h`, lines 53-84): the record, its
`operator <` and its `operator !=`, followed by the properties of the two comparisons that
the sorted vector `mDepthStencilStates` relies on.

The header includes, but does not contain, the declarations of `CompareFunction` and of
`StencilParams` (engine core). `CompareFunction` is an enum and is represented by its enum
value; `StencilParams` is taken as a type parameter together with its two comparison
operators.
-/

namespace Ogre

/-- Modelled from the spec: the enum `CompareFunction` is declared in the engine core, not in
this header. A value of the enum is represented by its enum value, which is what the built-in
`<` and `!=` compare. -/
structure CompareFunction where
  value : Nat
  deriving DecidableEq, Repr

namespace CompareFunction

/-- Enumerator 0 of `CompareFunction`. -/
def CMPF_ALWAYS_FAIL : CompareFunction := { value := 0 }

/-- Enumerator 1 of `CompareFunction`. -/
def CMPF_ALWAYS_PASS : CompareFunction := { value := 1 }

/-- Enumerator 2 of `CompareFunction`. -/
def CMPF_LESS : CompareFunction := { value := 2 }

/-- Enumerator 3 of `CompareFunction`. -/
def CMPF_LESS_EQUAL : CompareFunction := { value := 3 }

/-- Enumerator 4 of `CompareFunction`. -/
def CMPF_EQUAL : CompareFunction := { value := 4 }

/-- Enumerator 5 of `CompareFunction`. -/
def CMPF_NOT_EQUAL : CompareFunction := { value := 5 }

/-- Enumerator 6 of `CompareFunction`. -/
def CMPF_GREATER_EQUAL : CompareFunction := { value := 6 }

/-- Enumerator 7 of `CompareFunction`. -/
def CMPF_GREATER : CompareFunction := { value := 7 }

end CompareFunction

/-- The built-in `<` on two `CompareFunction` values: comparison of the enum values. -/
def CompareFunction.lt (x y : CompareFunction) : Bool :=
  decide (x.value < y.value)

/-- The built-in `!=` on two `CompareFunction` values. -/
def CompareFunction.ne (x y : CompareFunction) : Bool :=
  decide (x.value ≠ y.value)

/-- The built-in `<` on two `bool` operands: both are promoted to `int`
(`false` to 0, `true` to 1) and compared. -/
def boolLt (x y : Bool) : Bool :=
  decide (x.toNat < y.toNat)

/-- The built-in `!=` on two `bool` operands. -/
def boolNe (x y : Bool) : Bool :=
  decide (x.toNat ≠ y.toNat)

/-- Modelled from the spec: `StencilParams` is declared in the engine core, not in this
header. The record uses it only through `StencilParams::operator <` and
`StencilParams::operator !=`, which are the two members of this interface. -/
class StencilParamsOps (S : Type) where
  /-- `StencilParams::operator <`. -/
  lt : S → S → Bool
  /-- `StencilParams::operator !=`. -/
  ne : S → S → Bool

/-- `MetalRenderSystem::CachedDepthStencilState`. `refCount` is a `uint16`; the native handle
`id<MTLDepthStencilState>` is either nil or names a native object. -/
structure CachedDepthStencilState (S : Type) where
  refCount : Nat
  depthWrite : Bool
  depthFunc : CompareFunction
  stencilParams : S
  depthStencilState : Option Nat

namespace CachedDepthStencilState

variable {S : Type} [StencilParamsOps S]

/-- `CachedDepthStencilState()`: the constructor sets `refCount` to 0 and nothing else. The
key fields, which the caller assigns after construction, are arguments; no native state has
been created yet. -/
def new (depthWrite : Bool) (depthFunc : CompareFunction) (stencilParams : S) :
    CachedDepthStencilState S :=
  { refCount := 0
    depthWrite := depthWrite
    depthFunc := depthFunc
    stencilParams := stencilParams
    depthStencilState := none }

/-- `CachedDepthStencilState::operator <` (lines 64-76), statement by statement: each `if`
of the source is one `if` here, in the same order, and the final `return false` is the last
branch. -/
def lt (self other : CachedDepthStencilState S) : Bool :=
  if boolLt self.depthWrite other.depthWrite then true
  else if !(boolLt self.depthWrite other.depthWrite) then false
  else if CompareFunction.lt self.depthFunc other.depthFunc then true
  else if !(CompareFunction.lt self.depthFunc other.depthFunc) then false
  else if StencilParamsOps.lt self.stencilParams other.stencilParams then true
  else false

/-- `CachedDepthStencilState::operator !=` (lines 78-83). -/
def ne (self other : CachedDepthStencilState S) : Bool :=
  boolNe self.depthWrite other.depthWrite ||
  CompareFunction.ne self.depthFunc other.depthFunc ||
  StencilParamsOps.ne self.stencilParams other.stencilParams

/-- The order described for the cache key, written from its description and not from the
code: lexicographic on the triple `(depthWrite, depthFunc, stencilParams)`. -/
def lexLess (a b : CachedDepthStencilState S) : Bool :=
  boolLt a.depthWrite b.depthWrite ||
  (!(boolNe a.depthWrite b.depthWrite) && CompareFunction.lt a.depthFunc b.depthFunc) ||
  (!(boolNe a.depthWrite b.depthWrite) && !(CompareFunction.ne a.depthFunc b.depthFunc) &&
    StencilParamsOps.lt a.stencilParams b.stencilParams)

end CachedDepthStencilState

/-- A stand-in for `StencilParams` used at concrete inputs: only its 8-bit read mask. -/
structure MaskStencil where
  readMask : Nat
  deriving DecidableEq, Repr

/-- The stand-in is ordered and distinguished by its read mask. -/
instance : StencilParamsOps MaskStencil where
  lt s t := decide (s.readMask < t.readMask)
  ne s t := decide (s.readMask ≠ t.readMask)

/-! ## Concrete records -/

/-- A cached state: depth writes off, depth test `CMPF_ALWAYS_FAIL`, read mask 255. -/
def stateAlwaysFail : CachedDepthStencilState MaskStencil :=
  { refCount := 1, depthWrite := false, depthFunc := .CMPF_ALWAYS_FAIL,
    stencilParams := { readMask := 255 }, depthStencilState := some 1 }

/-- The same state as `stateAlwaysFail` except for the depth test, `CMPF_ALWAYS_PASS`. -/
def stateAlwaysPass : CachedDepthStencilState MaskStencil :=
  { refCount := 1, depthWrite := false, depthFunc := .CMPF_ALWAYS_PASS,
    stencilParams := { readMask := 255 }, depthStencilState := some 2 }

/-- A state with depth writes on, depth test `CMPF_LESS`, read mask 15. -/
def stateLess : CachedDepthStencilState MaskStencil :=
  { refCount := 2, depthWrite := true, depthFunc := .CMPF_LESS,
    stencilParams := { readMask := 15 }, depthStencilState := some 3 }

/-- The same state as `stateLess` except for the depth test, `CMPF_GREATER`. -/
def stateGreater : CachedDepthStencilState MaskStencil :=
  { refCount := 2, depthWrite := true, depthFunc := .CMPF_GREATER,
    stencilParams := { readMask := 15 }, depthStencilState := some 4 }

/-- The same state as `stateLess` except for the stencil read mask, 240. -/
def stateLessMask240 : CachedDepthStencilState MaskStencil :=
  { refCount := 2, depthWrite := true, depthFunc := .CMPF_LESS,
    stencilParams := { readMask := 240 }, depthStencilState := some 5 }

/-- A cached entry in use: three references and a native state object. -/
def cachedEntry : CachedDepthStencilState MaskStencil :=
  { refCount := 3, depthWrite := true, depthFunc := .CMPF_LESS_EQUAL,
    stencilParams := { readMask := 255 }, depthStencilState := some 17 }

/-- Another cached entry, with depth writes off. -/
def otherEntry : CachedDepthStencilState MaskStencil :=
  { refCount := 1, depthWrite := false, depthFunc := .CMPF_LESS_EQUAL,
    stencilParams := { readMask := 255 }, depthStencilState := some 18 }

/-! ## What the two comparisons compute -/

namespace CachedDepthStencilState

variable {S : Type} [StencilParamsOps S]

/-- The second `if` of `operator <` returns whenever the first one did not, so the result is
that of the `depthWrite` comparison alone. -/
theorem lt_eq_boolLt (a b : CachedDepthStencilState S) :
    a.lt b = boolLt a.depthWrite b.depthWrite := by
  unfold lt
  cases boolLt a.depthWrite b.depthWrite <;> simp

/-- On `bool`, `x < y` holds exactly for `x = false`, `y = true`. -/
theorem boolLt_eq (x y : Bool) : boolLt x y = (!x && y) := by
  cases x <;> cases y <;> rfl

/-- On `bool`, `x != y` is false exactly when the operands are equal. -/
theorem boolNe_eq_false_iff (x y : Bool) : boolNe x y = false ↔ x = y := by
  cases x <;> cases y <;> decide

/-- A record pair that `operator !=` reports as not different has equal `depthWrite`. -/
theorem depthWrite_eq_of_ne_false (a b : CachedDepthStencilState S) (h : a.ne b = false) :
    a.depthWrite = b.depthWrite := by
  unfold ne at h
  simp only [Bool.or_eq_false_iff] at h
  exact (boolNe_eq_false_iff _ _).1 h.1.1

/-- Two records are unordered by `operator <` exactly when their `depthWrite` agree. -/
theorem unordered_iff (a b : CachedDepthStencilState S) :
    (a.lt b = false ∧ b.lt a = false) ↔ a.depthWrite = b.depthWrite := by
  rw [lt_eq_boolLt, lt_eq_boolLt, boolLt_eq, boolLt_eq]
  cases a.depthWrite <;> cases b.depthWrite <;> simp

end CachedDepthStencilState

/-! ## Properties of the cache key -/

namespace CachedDepthStencilState

variable {S : Type} [StencilParamsOps S]

/-- C1, evaluated on the code: `stateAlwaysFail` and `stateAlwaysPass` differ in `depthFunc`
only. The stand-in stencil comparison meets the precondition (it orders any two values it
reports as different) and `operator !=` reports the two records as different, yet
`operator <` orders them in neither direction. -/
theorem lt_unordered_on_different_depthFunc :
    (∀ s t : MaskStencil, StencilParamsOps.ne s t = true →
      StencilParamsOps.lt s t = true ∨ StencilParamsOps.lt t s = true) ∧
    stateAlwaysFail.ne stateAlwaysPass = true ∧
    stateAlwaysFail.lt stateAlwaysPass = false ∧
    stateAlwaysPass.lt stateAlwaysFail = false := by
  refine ⟨?_, by decide, by decide, by decide⟩
  intro s t h
  simp only [StencilParamsOps.ne, StencilParamsOps.lt, decide_eq_true_eq] at h ⊢
  omega

/-- C2: two records that `operator !=` reports as not different are ordered by
`operator <` in neither direction. -/
theorem unordered_of_ne_false (a b : CachedDepthStencilState S) (h : a.ne b = false) :
    a.lt b = false ∧ b.lt a = false :=
  (unordered_iff a b).2 (depthWrite_eq_of_ne_false a b h)

/-- C2 at a cached entry and a fresh probe for the same state. -/
theorem unordered_of_ne_false_witness :
    cachedEntry.ne (new true .CMPF_LESS_EQUAL { readMask := 255 }) = false ∧
    cachedEntry.lt (new true .CMPF_LESS_EQUAL { readMask := 255 }) = false ∧
    (new true .CMPF_LESS_EQUAL { readMask := 255 }).lt cachedEntry = false :=
  ⟨by decide, unordered_of_ne_false cachedEntry _ (by decide)⟩

/-- C4, evaluated on the code: `operator <` is not the lexicographic order. `stateLess` and
`stateGreater` agree on `depthWrite` and `CMPF_LESS` precedes `CMPF_GREATER`;
`stateLess` and `stateLessMask240` agree on `depthWrite` and `depthFunc` and the stencil
parameters of the first precede those of the second. In both pairs the lexicographic order
holds and `operator <` returns false. -/
theorem lt_differs_from_lexLess :
    (stateLess.lexLess stateGreater = true ∧ stateLess.lt stateGreater = false) ∧
    (stateLess.lexLess stateLessMask240 = true ∧ stateLess.lt stateLessMask240 = false) := by
  decide

/-- C5: `operator <` is a strict weak ordering: irreflexive, transitive, and with a
transitive "unordered" relation, for every comparison of stencil parameters. -/
theorem lt_strict_weak_order (a b c : CachedDepthStencilState S) :
    a.lt a = false ∧
    (a.lt b = true → b.lt c = true → a.lt c = true) ∧
    (a.lt b = false ∧ b.lt a = false → b.lt c = false ∧ c.lt b = false →
      a.lt c = false ∧ c.lt a = false) := by
  refine ⟨?_, ?_, ?_⟩
  · rw [lt_eq_boolLt, boolLt_eq]
    cases a.depthWrite <;> rfl
  · simp only [lt_eq_boolLt, boolLt_eq]
    cases a.depthWrite <;> cases b.depthWrite <;> cases c.depthWrite <;> simp
  · intro hab hbc
    exact (unordered_iff a c).2
      (((unordered_iff a b).1 hab).trans ((unordered_iff b c).1 hbc))

/-- C6: records that agree on `depthWrite`, `depthFunc` and `stencilParams`, whatever their
`refCount` and native handle, give the same results under `operator <` and
`operator !=`. -/
theorem comparisons_ignore_bookkeeping (a b a' b' : CachedDepthStencilState S)
    (ha : a'.depthWrite = a.depthWrite ∧ a'.depthFunc = a.depthFunc ∧
      a'.stencilParams = a.stencilParams)
    (hb : b'.depthWrite = b.depthWrite ∧ b'.depthFunc = b.depthFunc ∧
      b'.stencilParams = b.stencilParams) :
    a'.lt b' = a.lt b ∧ a'.ne b' = a.ne b := by
  obtain ⟨ha1, ha2, ha3⟩ := ha
  obtain ⟨hb1, hb2, hb3⟩ := hb
  unfold lt ne
  rw [ha1, ha2, ha3, hb1, hb2, hb3]
  exact ⟨rfl, rfl⟩

/-- C6 at a fresh probe (`refCount` 0, no native state) standing for `cachedEntry`, compared
with `otherEntry`. -/
theorem comparisons_ignore_bookkeeping_witness :
    (new true .CMPF_LESS_EQUAL { readMask := 255 } : CachedDepthStencilState MaskStencil).refCount
      ≠ cachedEntry.refCount ∧
    (new true .CMPF_LESS_EQUAL { readMask := 255 } : CachedDepthStencilState MaskStencil).depthStencilState
      ≠ cachedEntry.depthStencilState ∧
    (new true .CMPF_LESS_EQUAL { readMask := 255 }).lt otherEntry = cachedEntry.lt otherEntry ∧
    (new true .CMPF_LESS_EQUAL { readMask := 255 }).ne otherEntry = cachedEntry.ne otherEntry :=
  ⟨by decide, by decide,
    comparisons_ignore_bookkeeping cachedEntry otherEntry
      (new true .CMPF_LESS_EQUAL { readMask := 255 }) otherEntry
      ⟨rfl, rfl, rfl⟩ ⟨rfl, rfl, rfl⟩⟩

end CachedDepthStencilState

end Ogre
